import Mathlib

/-!
Shallow embedding of the NeoPulse trading-engine core (risk sentinel,
risk manager wiring, position sizer, execution engine, strategy base,
event bus, circuit breaker, market-feed reconnect loop) together with
proofs settling the specification claims about it.

Conventions:
* Python floats over money/price values are modelled as `ℚ`.
* Python `int` counters that the source keeps non-negative
  (`open_trades`, `trades_today`, queue sizes) are modelled as `ℕ`;
  `max(0, x - 1)` becomes truncated `Nat` subtraction.
* A Python attribute access on an object is modelled, where the claim
  is about a missing attribute, through an explicit field-name lookup
  (`getattr`) returning `Option`; a failed lookup raises
  `PyErr.attributeError`, and fallible code runs in `Except PyErr`.
* Logging, database persistence and `asyncio.sleep` calls are elided:
  they do not affect any value or state the claims speak about.
-/

namespace NeoPulse

/-- A Python exception kind relevant to the embedded code. -/
inductive PyErr where
  | attributeError (attr : String)
  | typeError (msg : String)
  deriving Repr, DecidableEq

/-- A dynamically-typed attribute value, as stored on a pydantic model. -/
inductive AttrVal where
  | q (v : ℚ)
  | n (v : ℕ)
  | b (v : Bool)
  deriving Repr, DecidableEq

/-- Read a Bool-valued attribute through a `getattr`-style lookup. -/
def readB (getattr : String → Option AttrVal) (name : String) : Except PyErr Bool :=
  match getattr name with
  | some (.b v) => .ok v
  | some _ => .error (.typeError name)
  | none => .error (.attributeError name)

/-- Read a ℚ-valued attribute through a `getattr`-style lookup. -/
def readQ (getattr : String → Option AttrVal) (name : String) : Except PyErr ℚ :=
  match getattr name with
  | some (.q v) => .ok v
  | some _ => .error (.typeError name)
  | none => .error (.attributeError name)

/-- Read a ℕ-valued attribute through a `getattr`-style lookup. -/
def readN (getattr : String → Option AttrVal) (name : String) : Except PyErr ℕ :=
  match getattr name with
  | some (.n v) => .ok v
  | some _ => .error (.typeError name)
  | none => .error (.attributeError name)

/-! ## Risk configuration records

`app/risk/models.py` and `app/schemas/common.py` both define a pydantic
model called `RiskConfig`, with different field sets.  `RiskSentinel`
(`app/risk/sentinel.py`) imports the one from `app.risk.models`;
`RiskManager` (`app/risk/manager.py`) imports the one from
`app.schemas.common` and passes an instance of it to the sentinel. -/

/-- `RiskConfig` from `app/risk/models.py` (the type `RiskSentinel`
declares for its `config`).  Fields: `max_daily_loss`,
`max_capital_per_trade`, `max_open_trades`, `max_drawdown_pct`,
`kill_switch_active`. -/
structure RiskConfigModels where
  max_daily_loss : ℚ
  max_capital_per_trade : ℚ
  max_open_trades : ℕ
  max_drawdown_pct : ℚ
  kill_switch_active : Bool
  deriving Repr, DecidableEq

/-- Pydantic attribute lookup on the `app.risk.models.RiskConfig` model. -/
def RiskConfigModels.getattr (c : RiskConfigModels) (name : String) : Option AttrVal :=
  if name = "max_daily_loss" then some (.q c.max_daily_loss)
  else if name = "max_capital_per_trade" then some (.q c.max_capital_per_trade)
  else if name = "max_open_trades" then some (.n c.max_open_trades)
  else if name = "max_drawdown_pct" then some (.q c.max_drawdown_pct)
  else if name = "kill_switch_active" then some (.b c.kill_switch_active)
  else none

/-- `RiskConfig` from `app/schemas/common.py` (the instance `RiskManager`
actually constructs and hands to the sentinel).  Fields:
`max_daily_loss`, `max_concurrent_trades`, `kill_switch_active`,
`risk_per_trade_pct`. -/
structure CommonRiskConfig where
  max_daily_loss : ℚ
  max_concurrent_trades : ℕ
  kill_switch_active : Bool
  risk_per_trade_pct : ℚ
  deriving Repr, DecidableEq

/-- Pydantic attribute lookup on the `app.schemas.common.RiskConfig` model. -/
def CommonRiskConfig.getattr (c : CommonRiskConfig) (name : String) : Option AttrVal :=
  if name = "max_daily_loss" then some (.q c.max_daily_loss)
  else if name = "max_concurrent_trades" then some (.n c.max_concurrent_trades)
  else if name = "kill_switch_active" then some (.b c.kill_switch_active)
  else if name = "risk_per_trade_pct" then some (.q c.risk_per_trade_pct)
  else none

/-! ## RiskSentinel (`app/risk/sentinel.py`) -/

/-- The sentinel's in-memory (non-config) state:
`current_pnl`, `open_trades`, `trades_today`, `peak_equity`. -/
structure RiskMem where
  current_pnl : ℚ
  open_trades : ℕ
  trades_today : ℕ
  peak_equity : ℚ
  deriving Repr, DecidableEq

/-- `RiskSentinel.check_pre_trade`, line for line, over an arbitrary
attribute lookup for `self.config` (the source reads, in order:
`kill_switch_active`, `max_daily_loss`, `max_open_trades`,
`max_capital_per_trade`; on accept it increments `open_trades` and
`trades_today`). -/
def checkPreTradeOn (getattr : String → Option AttrVal) (st : RiskMem)
    (_symbol : String) (_quantity : ℕ) (value : ℚ) : Except PyErr (Bool × RiskMem) := do
  -- 1. Kill Switch
  let ks ← readB getattr "kill_switch_active"
  if ks then return (false, st)
  -- 2. Daily Loss Limit
  let maxLoss ← readQ getattr "max_daily_loss"
  if st.current_pnl ≤ -maxLoss then return (false, st)
  -- 3. Max Concurrent Trades
  let maxOpen ← readN getattr "max_open_trades"
  if st.open_trades ≥ maxOpen then return (false, st)
  -- 4. Capital Check
  let maxCap ← readQ getattr "max_capital_per_trade"
  if value > maxCap then return (false, st)
  -- Reserve Slot
  return (true, { st with open_trades := st.open_trades + 1, trades_today := st.trades_today + 1 })

/-- The full sentinel state: the shared mutable config object plus the
in-memory counters, as held by a sentinel constructed with the
`app.risk.models.RiskConfig` it declares. -/
structure SentinelState where
  config : RiskConfigModels
  mem : RiskMem
  deriving Repr, DecidableEq

/-- `check_pre_trade` on a sentinel whose config is its declared
`app.risk.models.RiskConfig` (every attribute the method reads exists). -/
def SentinelState.checkPreTrade (s : SentinelState) (symbol : String)
    (quantity : ℕ) (value : ℚ) : Except PyErr (Bool × SentinelState) :=
  match checkPreTradeOn s.config.getattr s.mem symbol quantity value with
  | .ok (b, mem') => .ok (b, { s with mem := mem' })
  | .error e => .error e

/-- `RiskSentinel.update_post_trade_close`: adds `pnl` to `current_pnl`,
decrements `open_trades` (floored at 0), raises `peak_equity`, and sets
`config.kill_switch_active := true` when `current_pnl ≤ -max_daily_loss`. -/
def SentinelState.updatePostTradeClose (s : SentinelState) (pnl : ℚ) : SentinelState :=
  let pnl' := s.mem.current_pnl + pnl
  let mem' : RiskMem :=
    { current_pnl := pnl'
      open_trades := s.mem.open_trades - 1
      trades_today := s.mem.trades_today
      peak_equity := if pnl' > s.mem.peak_equity then pnl' else s.mem.peak_equity }
  if pnl' ≤ -s.config.max_daily_loss then
    { config := { s.config with kill_switch_active := true }, mem := mem' }
  else
    { s with mem := mem' }

/-- `RiskSentinel.rollback_slot`: decrements `open_trades` and
`trades_today`, both floored at 0. -/
def SentinelState.rollbackSlot (s : SentinelState) : SentinelState :=
  { s with mem := { s.mem with
      open_trades := s.mem.open_trades - 1
      trades_today := s.mem.trades_today - 1 } }

/-- `RiskSentinel.sync_state`: when the broker is logged in and the
positions response has a `data` list, sets `open_trades` to the number
of rows with `netQty ≠ 0`; otherwise (not logged in, missing `data`, or
a broker exception) leaves the state unchanged.  The DB PnL step of the
source is a placeholder (`pass`) and mutates nothing. -/
def SentinelState.syncState (s : SentinelState) (positionsData : Option (List ℤ)) : SentinelState :=
  match positionsData with
  | some netQtys =>
      { s with mem := { s.mem with open_trades := (netQtys.filter (fun q => q ≠ 0)).length } }
  | none => s

/-- `RiskSentinel.reset_daily`: zeroes `current_pnl`, `trades_today`,
`peak_equity`, clears the kill switch, and deliberately does not touch
`open_trades`. -/
def SentinelState.resetDaily (s : SentinelState) : SentinelState :=
  { config := { s.config with kill_switch_active := false }
    mem := { s.mem with current_pnl := 0, trades_today := 0, peak_equity := 0 } }

/-- One call into the sentinel's mutating interface (the operations the
kill-switch latching claim quantifies over). -/
inductive SentinelOp where
  | check (symbol : String) (quantity : ℕ) (value : ℚ)
  | tradeClose (pnl : ℚ)
  | rollback
  | sync (positionsData : Option (List ℤ))
  deriving Repr

/-- State transition of a single sentinel call.  A call that raises
leaves the state unchanged (in `check_pre_trade` every config read
precedes every mutation). -/
def SentinelState.applyOp (s : SentinelState) : SentinelOp → SentinelState
  | .check symbol q v =>
      match s.checkPreTrade symbol q v with
      | .ok (_, s') => s'
      | .error _ => s
  | .tradeClose pnl => s.updatePostTradeClose pnl
  | .rollback => s.rollbackSlot
  | .sync d => s.syncState d

/-- Run a sequence of sentinel calls. -/
def SentinelState.applyOps (s : SentinelState) (ops : List SentinelOp) : SentinelState :=
  ops.foldl SentinelState.applyOp s

/-! ## RiskManager (`app/risk/manager.py`)

`RiskManager.__init__` builds `RiskConfig(max_daily_loss=1000.0,
max_concurrent_trades=3, risk_per_trade_pct=0.01)` — the
`app.schemas.common` model — and hands it to `RiskSentinel`.  The
sentinel therefore runs `check_pre_trade` against a config object whose
field set is `CommonRiskConfig.getattr`. -/

/-- The deployed risk-manager state: the `app.schemas.common.RiskConfig`
it constructed (shared with the sentinel), the `is_initialized` flag,
and the sentinel's in-memory counters. -/
structure ManagerState where
  config : CommonRiskConfig
  is_initialized : Bool
  mem : RiskMem
  deriving Repr, DecidableEq

/-- `RiskManager.can_trade`: returns `false` when not initialized, else
computes `value = qty * price` and delegates to
`RiskSentinel.check_pre_trade` with the common-schema config object. -/
def ManagerState.canTrade (m : ManagerState) (symbol : String) (qty : ℕ) (price : ℚ) :
    Except PyErr (Bool × ManagerState) :=
  if m.is_initialized = false then .ok (false, m)
  else
    match checkPreTradeOn m.config.getattr m.mem symbol qty ((qty : ℚ) * price) with
    | .ok (b, mem2) => .ok (b, { m with mem := mem2 })
    | .error e => .error e

/-- The methods `RiskSentinel` actually defines (`app/risk/sentinel.py`). -/
def sentinelMethods : List String :=
  ["sync_state", "check_pre_trade", "update_post_trade_close",
   "rollback_slot", "reset_daily", "get_status"]

/-- Python attribute lookup of a method on the sentinel instance. -/
def sentinelGetMethod (name : String) : Except PyErr Unit :=
  if name ∈ sentinelMethods then .ok () else .error (.attributeError name)

/-- `RiskManager.on_execution_failure`: the body is
`await self.sentinel.on_execution_failure()`.  The sentinel defines no
method of that name (its slot-release method is `rollback_slot`), so the
attribute lookup raises; no state is ever mutated on this path. -/
def managerOnExecutionFailure (mem : RiskMem) : Except PyErr RiskMem := do
  let _ ← sentinelGetMethod "on_execution_failure"
  return mem

/-- The keyword arguments `RiskManager.calculate_size` passes to
`PositionSizer.calculate_qty` (`app/risk/manager.py`, lines 83–94). -/
def managerCalculateSizeKwargs : List String :=
  ["total_capital", "available_capital", "max_slots", "open_slots", "entry_price",
   "sl_price", "lot_size", "confidence", "risk_per_trade_pct", "leverage"]

/-- The parameters `PositionSizer.calculate_qty` accepts
(`app/risk/sizer.py`, line 16, `self` aside). -/
def calculateQtyParams : List String :=
  ["capital", "entry_price", "sl_price", "lot_size", "consecutive_losses", "consecutive_wins"]

/-- `RiskManager.calculate_size` as deployed: the call
`self.sizer.calculate_qty(total_capital=…, …)` uses keyword arguments
the sizer's signature does not accept, so Python raises `TypeError`
before any quantity is computed. -/
def managerCalculateSize : Except PyErr ℕ :=
  if managerCalculateSizeKwargs.all (fun k => k ∈ calculateQtyParams) then
    .ok 0
  else .error (.typeError "calculate_qty() got an unexpected keyword argument")

/-! ## ExecutionEngine (`app/execution/engine.py`)

DB persistence (`OrderLedger` rows) and the fire-and-forget ledger
update are elided: they influence no value any claim speaks about.  The
broker's behaviour for each placed order is an explicit parameter. -/

/-- `OrderStatus` from `app/schemas/execution.py`. -/
inductive OrderStatus where
  | COMPLETE
  | REJECTED
  | CANCELLED
  | PARTIAL
  | FAILED
  deriving Repr, DecidableEq

/-- `OrderResponse` from `app/schemas/execution.py` (`raw_response` elided). -/
structure OrderResponse where
  order_id : String
  status : OrderStatus
  filled_qty : ℕ
  average_price : ℚ
  error_message : Option String
  deriving Repr, DecidableEq

/-- A raw broker response dict: the fields `_send_single_order` reads. -/
structure RawResp where
  stat : Option String
  nOrdNo : Option String
  errMsg : Option String
  deriving Repr, DecidableEq

/-- `is_success = raw_resp.get("stat") == "Ok" or "nOrdNo" in raw_resp`. -/
def isSuccessResp (r : RawResp) : Bool :=
  r.stat == some "Ok" || r.nOrdNo.isSome

/-- What the broker does for one `place_order` call: return a raw
response dict, or raise. -/
inductive BrokerOutcome where
  | resp (r : RawResp)
  | raise (msg : String)
  deriving Repr

/-- Render a modelled Python exception as `str(e)`. -/
def PyErr.msg : PyErr → String
  | .attributeError a => "object has no attribute " ++ a
  | .typeError m => m

/-- `ExecutionEngine._send_single_order`.  On a success response, build
a COMPLETE `OrderResponse` (order id from `nOrdNo`, default
`"UNKNOWN"`).  On a rejection, the source calls
`risk_manager.on_execution_failure()` inside the `try` block; the
`AttributeError` it raises is caught by `except Exception`, whose
handler calls `on_execution_failure()` again — that second exception
propagates out of the function.  A broker exception enters the same
handler directly. -/
def sendSingleOrder (broker : BrokerOutcome) (mem : RiskMem) (qty : ℕ) (price : ℚ) :
    Except PyErr (OrderResponse × RiskMem) :=
  match broker with
  | .resp raw =>
    if isSuccessResp raw then
      .ok ({ order_id := raw.nOrdNo.getD "UNKNOWN", status := .COMPLETE, filled_qty := qty,
             average_price := price, error_message := none }, mem)
    else
      match managerOnExecutionFailure mem with
      | .ok mem2 =>
          .ok ({ order_id := "NA", status := .REJECTED, filled_qty := 0, average_price := 0,
                 error_message := some (raw.errMsg.getD "Unknown Broker Error") }, mem2)
      | .error e1 =>
          match managerOnExecutionFailure mem with
          | .ok mem2 =>
              .ok ({ order_id := "NA", status := .FAILED, filled_qty := 0, average_price := 0,
                     error_message := some e1.msg }, mem2)
          | .error e2 => .error e2
  | .raise excMsg =>
      match managerOnExecutionFailure mem with
      | .ok mem2 =>
          .ok ({ order_id := "NA", status := .FAILED, filled_qty := 0, average_price := 0,
                 error_message := some excMsg }, mem2)
      | .error e => .error e

/-- The leg loop of `ExecutionEngine._execute_iceberg`: attempt up to
`legsLeft` legs of size `min remaining freeze`; on a COMPLETE leg
accumulate `filled`, `order_ids` and continue; on any other status stop
the chain and record the error; a leg that raises propagates. -/
def icebergLoop (legOutcome : ℕ → BrokerOutcome) (freeze : ℕ) (price : ℚ) :
    (legsLeft i remaining filled : ℕ) → (ids errs : List String) → RiskMem →
    Except PyErr (ℕ × List String × List String × RiskMem)
  | 0, _, _, filled, ids, errs, mem => .ok (filled, ids, errs, mem)
  | legsLeft + 1, i, remaining, filled, ids, errs, mem =>
    let legQty := min remaining freeze
    match sendSingleOrder (legOutcome i) mem legQty price with
    | .error e => .error e
    | .ok (resp, mem2) =>
      if resp.status = .COMPLETE then
        icebergLoop legOutcome freeze price legsLeft (i + 1) (remaining - legQty)
          (filled + legQty) (ids ++ [resp.order_id]) errs mem2
      else
        .ok (filled, ids,
             errs ++ ["Leg " ++ toString (i + 1) ++ ": " ++ (resp.error_message.getD "None")],
             mem2)

/-- `ExecutionEngine._execute_iceberg`: `ceil(total_qty / freeze_limit)`
legs; on return, aggregate status is COMPLETE when everything filled,
FAILED when nothing filled, PARTIAL otherwise; the aggregate order id is
the comma-join of the successful legs' ids. -/
def executeIceberg (legOutcome : ℕ → BrokerOutcome) (freeze totalQty : ℕ) (price : ℚ)
    (mem : RiskMem) : Except PyErr (OrderResponse × RiskMem) :=
  let numLegs := (totalQty + freeze - 1) / freeze
  match icebergLoop legOutcome freeze price numLegs 0 totalQty 0 [] [] mem with
  | .error e => .error e
  | .ok (filled, ids, errs, mem2) =>
    let finalStatus : OrderStatus :=
      if filled = 0 then .FAILED
      else if filled = totalQty then .COMPLETE
      else .PARTIAL
    .ok ({ order_id := String.intercalate "," ids, status := finalStatus, filled_qty := filled,
           average_price := price,
           error_message := if errs = [] then none else some (String.intercalate " | " errs) },
         mem2)

/-- The risk gate the engine consults, `self.risk_manager.can_trade`:
either the deployed manager, or the unit-test replacement
`AsyncMock(return_value=True)` used by
`tests/unit/execution/test_engine.py`. -/
inductive Gate where
  | deployed
  | alwaysAllow
  deriving Repr, DecidableEq

/-- Dispatch the engine's `can_trade` call through the configured gate. -/
def runGate : Gate → ManagerState → String → ℕ → ℚ → Except PyErr (Bool × ManagerState)
  | .deployed, m, symbol, qty, price => m.canTrade symbol qty price
  | .alwaysAllow, m, _, _, _ => .ok (true, m)

/-- `ExecutionEngine.execute_order`: risk check first (a denial returns
`None`), then route to the iceberg splitter when `quantity > freeze_qty`
and to a single order otherwise.  `freezeQty` stands for the instrument
master's `freeze_qty` (default 1800 when the symbol is unknown). -/
def executeOrder (gate : Gate) (legOutcome : ℕ → BrokerOutcome) (freezeQty : ℕ)
    (m : ManagerState) (symbol : String) (qty : ℕ) (price : ℚ) :
    Except PyErr (Option OrderResponse × ManagerState) :=
  match runGate gate m symbol qty price with
  | .error e => .error e
  | .ok (false, m2) => .ok (none, m2)
  | .ok (true, m2) =>
    if qty > freezeQty then
      match executeIceberg legOutcome freezeQty qty price m2.mem with
      | .error e => .error e
      | .ok (resp, mem2) => .ok (some resp, { m2 with mem := mem2 })
    else
      match sendSingleOrder (legOutcome 0) m2.mem qty price with
      | .error e => .error e
      | .ok (resp, mem2) => .ok (some resp, { m2 with mem := mem2 })

/-! ## BaseStrategy (`app/strategy/base.py`)

Wall-clock instants (`datetime.now()`) are modelled as epoch
milliseconds in `ℕ`; `timedelta.seconds` of a non-negative delta is the
whole-second count modulo 86400 (the attribute excludes days). -/

/-- The strategy state the order paths read and write. -/
structure StrategyState where
  position : ℤ
  last_trade_time : Option ℕ
  deriving Repr, DecidableEq

/-- `(now − last).seconds` for `now ≥ last`, instants in milliseconds. -/
def timedeltaSeconds (now last : ℕ) : ℕ := ((now - last) / 1000) % 86400

/-- The body of `BaseStrategy._execute` after the debounce guard: send
the order through `execution_engine.execute_order`; on a COMPLETE or
PARTIAL response add (BUY) or subtract (SELL) `filled_qty` to the
position and stamp `last_trade_time`. -/
def stratExecuteSend (gate : Gate) (legOutcome : ℕ → BrokerOutcome) (freezeQty : ℕ)
    (st : StrategyState) (m : ManagerState) (now : ℕ) (symbol side : String)
    (qty : ℕ) (price : ℚ) :
    Except PyErr (Option OrderResponse × StrategyState × ManagerState) :=
  match executeOrder gate legOutcome freezeQty m symbol qty price with
  | .error e => .error e
  | .ok (none, m2) => .ok (none, st, m2)
  | .ok (some resp, m2) =>
    if resp.status = .COMPLETE ∨ resp.status = .PARTIAL then
      let newPosition : ℤ :=
        if side = "BUY" then st.position + resp.filled_qty else st.position - resp.filled_qty
      .ok (some resp, { position := newPosition, last_trade_time := some now }, m2)
    else
      .ok (some resp, st, m2)

/-- `BaseStrategy._execute`: a 1-second debounce on `last_trade_time`
(`(datetime.now() - last_trade_time).seconds < 1` returns `None`
without calling the execution engine), then send and update state. -/
def stratExecute (gate : Gate) (legOutcome : ℕ → BrokerOutcome) (freezeQty : ℕ)
    (st : StrategyState) (m : ManagerState) (now : ℕ) (symbol side : String)
    (qty : ℕ) (price : ℚ) :
    Except PyErr (Option OrderResponse × StrategyState × ManagerState) :=
  match st.last_trade_time with
  | some t =>
    if timedeltaSeconds now t < 1 then .ok (none, st, m)
    else stratExecuteSend gate legOutcome freezeQty st m now symbol side qty price
  | none => stratExecuteSend gate legOutcome freezeQty st m now symbol side qty price

/-- `BaseStrategy.sell`.  `position > 0` classifies the sell as a LONG
EXIT: quantity defaults to `abs(position)` and the strategy-level
`risk_manager.can_trade` check is skipped.  Otherwise it is a SHORT
ENTRY: the quantity comes from the argument or from
`risk_manager.calculate_size` (which, as deployed, raises `TypeError`),
and when the exposure increases the strategy consults the risk gate and
returns `None` on denial.  Either way the order goes through
`_execute`. -/
def strategySell (gate : Gate) (legOutcome : ℕ → BrokerOutcome) (freezeQty : ℕ)
    (st : StrategyState) (m : ManagerState) (now : ℕ) (symbol : String)
    (price : ℚ) (qtyArg : Option ℕ) :
    Except PyErr (Option OrderResponse × StrategyState × ManagerState) :=
  if st.position > 0 then
    -- Case A: We are Long. Selling means EXITING.
    let calculatedQty := qtyArg.getD st.position.natAbs
    if calculatedQty = 0 then .ok (none, st, m)
    else stratExecute gate legOutcome freezeQty st m now symbol "SELL" calculatedQty price
  else
    -- Case B: We are Flat/Short. Selling means ENTERING SHORT.
    match (match qtyArg with | some q => Except.ok q | none => managerCalculateSize) with
    | .error e => .error e
    | .ok calculatedQty =>
      if calculatedQty = 0 then .ok (none, st, m)
      else
        let newExposure := (st.position - calculatedQty).natAbs
        let currentExposure := st.position.natAbs
        if newExposure > currentExposure then
          match runGate gate m symbol calculatedQty price with
          | .error e => .error e
          | .ok (false, m2) => .ok (none, st, m2)
          | .ok (true, m2) =>
              stratExecute gate legOutcome freezeQty st m2 now symbol "SELL" calculatedQty price
        else stratExecute gate legOutcome freezeQty st m now symbol "SELL" calculatedQty price

/-- `BaseStrategy.close_position`: flatten any open position by sending
the opposite-side market order through `_execute` (price 0 ⇒ MKT). -/
def closePosition (gate : Gate) (legOutcome : ℕ → BrokerOutcome) (freezeQty : ℕ)
    (st : StrategyState) (m : ManagerState) (now : ℕ) (symbol : String) :
    Except PyErr (Option OrderResponse × StrategyState × ManagerState) :=
  if st.position = 0 then .ok (none, st, m)
  else if st.position > 0 then
    stratExecute gate legOutcome freezeQty st m now symbol "SELL" st.position.natAbs 0
  else
    stratExecute gate legOutcome freezeQty st m now symbol "BUY" st.position.natAbs 0

/-! ## PositionSizer (`app/risk/sizer.py`) -/

/-- `PositionConfig` from `app/risk/models.py`. -/
structure PositionConfig where
  method : String
  risk_per_trade_pct : ℚ
  leverage : ℚ
  deriving Repr, DecidableEq

/-- `PositionSizer.calculate_qty` (`app/risk/sizer.py`), branch by
branch.  In the MARTINGALE / ANTI_MARTINGALE branches the source
divides by `risk_per_share` without a zero guard; no claim exercises
them, and `ℚ` division by zero yields 0 here. -/
def calculateQty (cfg : PositionConfig) (capital entry_price sl_price : ℚ) (lot_size : ℤ)
    (consecutive_losses consecutive_wins : ℕ) : ℤ :=
  if entry_price ≤ 0 ∨ sl_price ≤ 0 then 0
  else
    let lot : ℤ := max 1 lot_size
    if cfg.method = "FIXED_RISK" then
      let riskPerShare := |entry_price - sl_price|
      if riskPerShare = 0 then 0
      else
        let riskAmount := capital * cfg.risk_per_trade_pct
        let rawQty := riskAmount / riskPerShare
        let maxBuyingPower := capital * cfg.leverage
        let maxQtyByCapital := maxBuyingPower / entry_price
        let finalRawQty := min rawQty maxQtyByCapital
        Int.floor (finalRawQty / lot) * lot
    else if cfg.method = "FIXED_CAPITAL" then
      let allocation := capital * (1 / 4)
      let rawQty := allocation / entry_price
      Int.floor (rawQty / lot) * lot
    else if cfg.method = "MARTINGALE" then
      let multiplier : ℕ := min (2 ^ consecutive_losses) 4
      let riskAmount := capital * cfg.risk_per_trade_pct * multiplier
      let riskPerShare := |entry_price - sl_price|
      let rawQty := riskAmount / riskPerShare
      Int.floor (rawQty / lot) * lot
    else if cfg.method = "ANTI_MARTINGALE" then
      let bonusRisk := min ((consecutive_wins : ℚ) * (5 / 1000)) (3 / 100)
      let riskAmount := capital * (cfg.risk_per_trade_pct + bonusRisk)
      let riskPerShare := |entry_price - sl_price|
      let rawQty := riskAmount / riskPerShare
      Int.floor (rawQty / lot) * lot
    else 0

/-! ## EventBus (`app/core/bus.py`) -/

/-- `EventBus.TICK_QUEUE_SIZE`. -/
def TICK_QUEUE_SIZE : ℕ := 1000

/-- The tick queue with its drop counter; payloads modelled as `ℕ`.
The list front is the oldest element (asyncio FIFO order). -/
structure TickQueue where
  queue : List ℕ
  ticks_dropped : ℕ
  deriving Repr, DecidableEq

/-- The bus state after `EventBus.__init__`. -/
def initTickQueue : TickQueue := { queue := [], ticks_dropped := 0 }

/-- `EventBus.put_tick`: `put_nowait`; on `QueueFull`, `get_nowait` the
oldest element, count it as dropped, and enqueue the new tick.  The
`except QueueEmpty: pass` arm of the source (unreachable at capacity
1000) leaves the state unchanged. -/
def putTick (s : TickQueue) (t : ℕ) : TickQueue :=
  if s.queue.length < TICK_QUEUE_SIZE then
    { s with queue := s.queue ++ [t] }
  else
    match s.queue with
    | [] => s
    | _ :: rest => { queue := rest ++ [t], ticks_dropped := s.ticks_dropped + 1 }

/-- A consumer `get` on the tick queue (removes the oldest element). -/
def getTick (s : TickQueue) : TickQueue := { s with queue := s.queue.drop 1 }

/-- One operation on the tick queue. -/
inductive BusOp where
  | put (t : ℕ)
  | get
  deriving Repr

/-- Apply one bus operation. -/
def applyBusOp (s : TickQueue) : BusOp → TickQueue
  | .put t => putTick s t
  | .get => getTick s

/-- Apply a sequence of bus operations. -/
def applyBusOps (s : TickQueue) (ops : List BusOp) : TickQueue :=
  ops.foldl applyBusOp s

/-! ## CircuitBreaker (`app/core/circuit_breaker.py`)

`CircuitBreaker.call` is an `async` function: between its admission
check (the `if self.state == OPEN` block) and the settlement of the
awaited protected function, other calls can be admitted.  The two
phases are embedded separately; instants are seconds in `ℚ`. -/

/-- The breaker's three states. -/
inductive CircuitState where
  | CLOSED
  | OPEN
  | HALF_OPEN
  deriving Repr, DecidableEq

/-- The breaker's mutable fields. -/
structure CBState where
  failure_threshold : ℕ
  recovery_timeout : ℚ
  state : CircuitState
  failure_count : ℕ
  last_failure_time : Option ℚ
  success_count : ℕ
  deriving Repr, DecidableEq

/-- `CircuitBreaker._should_attempt_reset`. -/
def shouldAttemptReset (cb : CBState) (now : ℚ) : Bool :=
  match cb.last_failure_time with
  | none => true
  | some t => decide (now - t ≥ cb.recovery_timeout)

/-- Whether an admitted call proceeds to the protected function or
fails fast with the breaker's "Circuit breaker OPEN" exception. -/
inductive AdmitResult where
  | proceed
  | fastFail
  deriving Repr, DecidableEq

/-- The admission phase of `CircuitBreaker.call` (everything before
`await func(...)`): a call in OPEN either transitions the breaker to
HALF_OPEN (after the recovery timeout) and proceeds, or fails fast;
every call in CLOSED or HALF_OPEN proceeds. -/
def cbAdmit (cb : CBState) (now : ℚ) : AdmitResult × CBState :=
  if cb.state = .OPEN then
    if shouldAttemptReset cb now then (.proceed, { cb with state := .HALF_OPEN })
    else (.fastFail, cb)
  else (.proceed, cb)

/-- The settlement phase of `CircuitBreaker.call` (after `await
func(...)` returns or raises): success in HALF_OPEN closes the breaker
and resets the counter; failure increments the counter, stamps
`last_failure_time`, and opens the breaker at the threshold. -/
def cbSettle (cb : CBState) (now : ℚ) (success : Bool) : CBState :=
  if success then
    if cb.state = .HALF_OPEN then
      { cb with state := .CLOSED, failure_count := 0, success_count := cb.success_count + 1 }
    else cb
  else
    let cb2 := { cb with failure_count := cb.failure_count + 1, last_failure_time := some now }
    if cb2.failure_count ≥ cb2.failure_threshold then { cb2 with state := .OPEN } else cb2

/-! ## MarketFeed reconnect loop (`app/data/feed.py`)

One outer iteration of `MarketFeed.connect` begins by (re)issuing the
subscription for the current tokens and then sits in the watchdog loop.
The iteration ends either with an exception (zombie detection or any
other error: sleep the current `reconnect_delay`, then double it capped
at 60) or because the stop event was set (the only path on which the
`self.reconnect_delay = 2` statement after the watchdog loop runs). -/

/-- How one outer iteration of the connect loop ends. -/
inductive FeedIter where
  | exception
  | stopped
  deriving Repr, DecidableEq

/-- The reconnect-delay dynamics of `MarketFeed.connect`: fold the
iteration outcomes, returning the list of back-off sleeps performed and
the final `reconnect_delay`.  A successful (re)subscription at the head
of an iteration leaves the delay untouched; only the stop event reaches
the reset statement. -/
def connectLoop : ℕ → List FeedIter → List ℕ × ℕ
  | delay, [] => ([], delay)
  | delay, .exception :: rest =>
      let next := connectLoop (min (delay * 2) 60) rest
      (delay :: next.1, next.2)
  | _, .stopped :: _ => ([], 2)

/-! ## Claim theorems -/

/-- Strategy state for the exit-under-slot-saturation scenario:
long 50 shares, no previous trade this second. -/
def c1Strategy : StrategyState := { position := 50, last_trade_time := none }

/-- The deployed risk manager at slot saturation: initialized, kill
switch off, flat PnL, `open_trades = max_concurrent_trades = 3`
(`RiskManager.__init__` defaults). -/
def c1Manager : ManagerState :=
  { config := { max_daily_loss := 1000, max_concurrent_trades := 3,
                kill_switch_active := false, risk_per_trade_pct := 1 / 100 }
    is_initialized := true
    mem := { current_pnl := 0, open_trades := 3, trades_today := 3, peak_equity := 0 } }

/-- The same manager with the kill switch on. -/
def c1ManagerKS : ManagerState :=
  { c1Manager with config := { c1Manager.config with kill_switch_active := true } }

/-- C1.  The claim says an intent that reduces `|position|` (here a
SELL while `position = +50`) is classified as an exit and sent without
the risk gate's concurrency/exposure checks, in particular when
`openTrades = maxConcurrentTrades = 3`.  On the code this fails:
`BaseStrategy.sell` does skip its own `can_trade` call for the exit,
but `ExecutionEngine.execute_order` then calls
`risk_manager.can_trade` unconditionally for every order, so the exit
is gated after all — with the deployed config the gate raises
`AttributeError("max_open_trades")` and no order reaches the broker
(the result does not depend on the broker-outcome parameter).  Only
the kill-switch half of the claim holds: with the switch on the exit
is refused with `None`, again with no broker call. -/
theorem c1_exit_is_gated_not_bypassed :
    (∀ legOutcome : ℕ → BrokerOutcome,
        strategySell .deployed legOutcome 1800 c1Strategy c1Manager 0 "RELIANCE" 100 none =
          .error (.attributeError "max_open_trades")) ∧
    (∀ legOutcome : ℕ → BrokerOutcome,
        strategySell .deployed legOutcome 1800 c1Strategy c1ManagerKS 0 "RELIANCE" 100 none =
          .ok (none, c1Strategy, c1ManagerKS)) :=
  ⟨fun _ => rfl, fun _ => rfl⟩

/-- Any single sentinel call preserves a lit kill switch: no operation
other than `reset_daily` ever writes `False` into
`config.kill_switch_active`. -/
theorem applyOp_keeps_kill_switch (s : SentinelState) (op : SentinelOp)
    (h : s.config.kill_switch_active = true) :
    (s.applyOp op).config.kill_switch_active = true := by
  cases op with
  | check symbol q v =>
      simp [SentinelState.applyOp, SentinelState.checkPreTrade, checkPreTradeOn,
        readB, RiskConfigModels.getattr, h, Bind.bind, Except.bind, Pure.pure, Except.pure]
  | tradeClose pnl =>
      simp only [SentinelState.applyOp, SentinelState.updatePostTradeClose]
      split <;> simp [h]
  | rollback =>
      simp [SentinelState.applyOp, SentinelState.rollbackSlot, h]
  | sync d =>
      cases d <;> simp [SentinelState.applyOp, SentinelState.syncState, h]

/-- Any sequence of sentinel calls preserves a lit kill switch. -/
theorem applyOps_keeps_kill_switch (ops : List SentinelOp) (s : SentinelState)
    (h : s.config.kill_switch_active = true) :
    (s.applyOps ops).config.kill_switch_active = true := by
  induction ops generalizing s with
  | nil => exact h
  | cons op rest ih =>
      exact ih (s.applyOp op) (applyOp_keeps_kill_switch s op h)

/-- C2.  Once the kill switch is on, no sequence of `check_pre_trade`,
`update_post_trade_close`, `rollback_slot` or `sync_state` calls clears
it; while it is on, `check_pre_trade` returns `false` immediately and
reserves no slot (the state is returned unchanged); and `reset_daily`
is the operation that clears it. -/
theorem c2_kill_switch_latches (s : SentinelState) (ops : List SentinelOp)
    (h : s.config.kill_switch_active = true) :
    (s.applyOps ops).config.kill_switch_active = true ∧
    (∀ symbol q v, s.checkPreTrade symbol q v = .ok (false, s)) ∧
    s.resetDaily.config.kill_switch_active = false := by
  refine ⟨applyOps_keeps_kill_switch ops s h, ?_, rfl⟩
  intro symbol q v
  simp [SentinelState.checkPreTrade, checkPreTradeOn, readB, RiskConfigModels.getattr, h,
    Bind.bind, Except.bind, Pure.pure, Except.pure]

/-- A concrete sentinel whose kill switch is on. -/
def c2State : SentinelState :=
  { config := { max_daily_loss := 1000, max_capital_per_trade := 50000,
                max_open_trades := 3, max_drawdown_pct := 5 / 100, kill_switch_active := true }
    mem := { current_pnl := -1200, open_trades := 2, trades_today := 4, peak_equity := 150 } }

/-- Witness for C2 at a concrete tripped sentinel and a concrete call
sequence. -/
theorem c2_kill_switch_latches_witness :
    c2State.config.kill_switch_active = true ∧
    (c2State.applyOps
        [.tradeClose (-50), .rollback, .sync (some [1, 0, -3]),
         .check "RELIANCE" 10 25000]).config.kill_switch_active = true ∧
    c2State.checkPreTrade "RELIANCE" 10 25000 = .ok (false, c2State) ∧
    c2State.resetDaily.config.kill_switch_active = false :=
  ⟨rfl,
    (c2_kill_switch_latches c2State
      [.tradeClose (-50), .rollback, .sync (some [1, 0, -3]),
       .check "RELIANCE" 10 25000] rfl).1,
    (c2_kill_switch_latches c2State [] rfl).2.1 "RELIANCE" 10 25000,
    (c2_kill_switch_latches c2State [] rfl).2.2⟩

/-- `broker_circuit_breaker` (threshold 3, recovery 30 s) after its
third consecutive failure at t = 0: state OPEN. -/
def c3Breaker : CBState :=
  { failure_threshold := 3, recovery_timeout := 30, state := .OPEN,
    failure_count := 3, last_failure_time := some 0, success_count := 0 }

/-- C3.  The claim says that while a HALF_OPEN probe is in flight every
other caller fast-fails with `CircuitOpenError`.  On the code this
fails: at t = 30 a first caller is admitted and moves the breaker to
HALF_OPEN, and a second caller arriving while that probe is still
unsettled is also admitted to the protected function — `cbAdmit`
fast-fails only in the OPEN state, and the source has no probe flag,
no lock, and no `CircuitOpenError` class at all. -/
theorem c3_half_open_admits_concurrent_calls :
    (cbAdmit c3Breaker 30).1 = .proceed ∧
    (cbAdmit c3Breaker 30).2.state = .HALF_OPEN ∧
    cbAdmit (cbAdmit c3Breaker 30).2 30 = (.proceed, (cbAdmit c3Breaker 30).2) := by
  norm_num [cbAdmit, c3Breaker, shouldAttemptReset]

/-- The broker of `tests/unit/execution/test_engine.py`: legs 1 and 2
accepted (`stat = "Ok"`, `nOrdNo = "1001"`), leg 3 rejected
(`stat = "Not_Ok"`). -/
def c4Legs : ℕ → BrokerOutcome := fun i =>
  if i < 2 then .resp { stat := some "Ok", nOrdNo := some "1001", errMsg := none }
  else .resp { stat := some "Not_Ok", nOrdNo := none, errMsg := some "Network Error" }

/-- A broker that accepts every leg. -/
def c4OkLegs : ℕ → BrokerOutcome :=
  fun _ => .resp { stat := some "Ok", nOrdNo := some "1001", errMsg := none }

/-- C4.  The claim describes the iceberg aggregation (stop at first
failing leg; COMPLETE / PARTIAL / FAILED; comma-joined ids; summed
`filledQty`).  On the code only the all-legs-succeed half is
reachable: at the repository's own test input (`qty = 300`,
`freezeQty = 100`, gate mocked to allow, broker Ok, Ok, Not_Ok) the
failing leg's slot-release call raises
`AttributeError("on_execution_failure")`, which propagates out of
`execute_order` instead of producing the PARTIAL response with
`filledQty = 200` that the claim (and the test) expect.  When every
leg succeeds the aggregate is as claimed: COMPLETE, `filledQty = 300`,
id `"1001,1001,1001"`. -/
theorem c4_iceberg_rejected_leg_raises :
    executeOrder .alwaysAllow c4Legs 100 c1Manager "REL" 300 0 =
      .error (.attributeError "on_execution_failure") ∧
    executeOrder .alwaysAllow c4OkLegs 100 c1Manager "REL" 300 0 =
      .ok (some { order_id := "1001,1001,1001", status := .COMPLETE, filled_qty := 300,
                  average_price := 0, error_message := none }, c1Manager) :=
  ⟨rfl, rfl⟩

/-- The sizer configuration `PositionSizer` would need for the spec's
worked example (`FIXED_RISK`, 1 % risk, 1× leverage). -/
def fixedRiskConfig : PositionConfig :=
  { method := "FIXED_RISK", risk_per_trade_pct := 1 / 100, leverage := 1 }

/-- C5.  The claim describes a slot-based sizer
(`slotAllocation = totalCapital/maxSlots`, confidence scaling,
`availableCapital` cap, the `|entry − sl| < 0.05` fallback) returning
25 on the spec's example.  The sizer in the source implements none of
it: its `calculate_qty(capital, entry_price, sl_price, lot_size,
consecutive_losses, consecutive_wins)` ignores slots, confidence and
available capital, and on the example input (capital 100000, entry
100, sl 99, lot 1, 1 % risk, 1× leverage) returns 1000, not 25.
Moreover `RiskManager.calculate_size` invokes it with keyword
arguments (`total_capital`, `confidence`, …) that the signature does
not accept, so the deployed call raises `TypeError` before any
quantity is computed — exactly as the repository's own
`tests/unit/risk/test_sizer.py` (which expects 25) cannot even run
against it. -/
theorem c5_sizer_is_not_the_slot_sizer :
    calculateQty fixedRiskConfig 100000 100 99 1 0 0 = 1000 ∧
    calculateQty fixedRiskConfig 100000 100 99 1 0 0 ≠ 25 ∧
    "total_capital" ∉ calculateQtyParams ∧
    "confidence" ∉ calculateQtyParams ∧
    managerCalculateSize =
      .error (.typeError "calculate_qty() got an unexpected keyword argument") := by
  have h : calculateQty fixedRiskConfig 100000 100 99 1 0 0 = 1000 := by
    norm_num [calculateQty, fixedRiskConfig]
  exact ⟨h, by rw [h]; decide, by decide, by decide, rfl⟩

/-- A `put_tick` never grows the queue past `TICK_QUEUE_SIZE`. -/
theorem putTick_length_le (s : TickQueue) (t : ℕ)
    (h : s.queue.length ≤ TICK_QUEUE_SIZE) :
    (putTick s t).queue.length ≤ TICK_QUEUE_SIZE := by
  unfold putTick
  split
  · next hlt => simp only [List.length_append, List.length_singleton]; omega
  · next hge =>
      cases hq : s.queue with
      | nil => exact h
      | cons x rest =>
          have := h
          rw [hq] at this
          simpa using this

/-- Every state reachable from the freshly constructed bus respects the
capacity bound. -/
theorem applyBusOps_length_le (ops : List BusOp) :
    (applyBusOps initTickQueue ops).queue.length ≤ TICK_QUEUE_SIZE := by
  suffices h : ∀ s : TickQueue, s.queue.length ≤ TICK_QUEUE_SIZE →
      (applyBusOps s ops).queue.length ≤ TICK_QUEUE_SIZE by
    exact h initTickQueue (by simp [initTickQueue])
  induction ops with
  | nil => intro s hs; exact hs
  | cons op rest ih =>
      intro s hs
      cases op with
      | put t => exact ih (putTick s t) (putTick_length_le s t hs)
      | get =>
          refine ih (getTick s) ?_
          simp only [getTick, List.length_drop]
          omega

/-- C6.  The tick queue's depth never exceeds its capacity of 1000 in
any reachable state; a `put_tick` on a full queue removes exactly the
oldest element, increments `ticks_dropped` by one and enqueues the new
tick (keeping the depth at capacity); `ticks_dropped` increases —
always by exactly one — precisely when the put hits a full queue; and
`put_tick` is a total function of the state (it never blocks). -/
theorem c6_tickq_bounded_and_drop_oldest (ops : List BusOp) (t : ℕ) :
    ((applyBusOps initTickQueue ops).queue.length ≤ TICK_QUEUE_SIZE ∧
      (putTick (applyBusOps initTickQueue ops) t).queue.length ≤ TICK_QUEUE_SIZE) ∧
    (putTick (applyBusOps initTickQueue ops) t).queue =
      (if (applyBusOps initTickQueue ops).queue.length = TICK_QUEUE_SIZE
       then (applyBusOps initTickQueue ops).queue.drop 1 ++ [t]
       else (applyBusOps initTickQueue ops).queue ++ [t]) ∧
    (putTick (applyBusOps initTickQueue ops) t).ticks_dropped =
      (if (applyBusOps initTickQueue ops).queue.length = TICK_QUEUE_SIZE
       then (applyBusOps initTickQueue ops).ticks_dropped + 1
       else (applyBusOps initTickQueue ops).ticks_dropped) := by
  set s := applyBusOps initTickQueue ops with hs
  have hle : s.queue.length ≤ TICK_QUEUE_SIZE := applyBusOps_length_le ops
  refine ⟨⟨hle, putTick_length_le s t hle⟩, ?_, ?_⟩
  all_goals
    by_cases hfull : s.queue.length = TICK_QUEUE_SIZE
    case pos =>
      cases hq : s.queue with
      | nil => rw [hq] at hfull; simp [TICK_QUEUE_SIZE] at hfull
      | cons x rest =>
          have hlen : rest.length + 1 = TICK_QUEUE_SIZE := by
            rw [hq] at hfull; simpa using hfull
          simp [putTick, hq, hfull, hlen]
    case neg =>
      have hlt : s.queue.length < TICK_QUEUE_SIZE := lt_of_le_of_ne hle hfull
      simp [putTick, hlt, hfull]

/-- C7.  The claim says each exception backs off for the current delay
and doubles it capped at 60 s, and that the first successful
subscription after a reconnect resets the delay to 2 s.  The first
half holds: six consecutive failures sleep 2, 4, 8, 16, 32, 60 s.  The
second half fails on the code: every iteration of the connect loop
begins with a successful resubscription, yet after
[exception, exception] the two sleeps are 2 s and 4 s — the
resubscription before the second exception did not reset the delay to
2 s, because the `reconnect_delay = 2` statement sits after the
watchdog loop and is reached only when the stop event ends the loop. -/
theorem c7_reconnect_delay_never_resets_on_subscribe :
    connectLoop 2 [.exception, .exception] = ([2, 4], 8) ∧
    (connectLoop 2 [.exception, .exception]).1 ≠ [2, 2] ∧
    connectLoop 2
        [.exception, .exception, .exception, .exception, .exception, .exception] =
      ([2, 4, 8, 16, 32, 60], 60) ∧
    connectLoop 4 [.stopped] = ([], 2) := by
  refine ⟨rfl, by decide, rfl, rfl⟩

/-- C8.  After initialization, whenever the kill switch is off and
`current_pnl` is above `-max_daily_loss`, `RiskManager.can_trade`
raises `AttributeError` instead of returning a boolean:
`check_pre_trade` reads `config.max_open_trades` (and later
`config.max_capital_per_trade`), but the config the manager wired in
is the `app.schemas.common.RiskConfig`, which defines neither field.
Consequently no entry can ever be accepted through this path — the
result is never `.ok`, so no slot is reserved. -/
theorem c8_can_trade_raises_attribute_error (m : ManagerState) (symbol : String)
    (qty : ℕ) (price : ℚ)
    (hinit : m.is_initialized = true)
    (hks : m.config.kill_switch_active = false)
    (hpnl : -m.config.max_daily_loss < m.mem.current_pnl) :
    m.canTrade symbol qty price = .error (.attributeError "max_open_trades") ∧
    m.config.getattr "max_open_trades" = none ∧
    m.config.getattr "max_capital_per_trade" = none := by
  refine ⟨?_, by simp [CommonRiskConfig.getattr], by simp [CommonRiskConfig.getattr]⟩
  simp [ManagerState.canTrade, checkPreTradeOn, readB, readQ, readN,
    CommonRiskConfig.getattr, hinit, hks, not_le.mpr hpnl,
    Bind.bind, Except.bind, Pure.pure, Except.pure]

/-- Witness for C8: the manager exactly as `RiskManager.__init__`
builds it (loss limit 1000, 3 slots, 1 % risk), marked initialized,
with a flat book. -/
theorem c8_can_trade_raises_attribute_error_witness :
    c1Manager.is_initialized = true ∧
    c1Manager.config.kill_switch_active = false ∧
    -c1Manager.config.max_daily_loss < c1Manager.mem.current_pnl ∧
    (c1Manager.canTrade "RELIANCE" 10 2500 = .error (.attributeError "max_open_trades") ∧
      c1Manager.config.getattr "max_open_trades" = none ∧
      c1Manager.config.getattr "max_capital_per_trade" = none) :=
  ⟨rfl, rfl, by norm_num [c1Manager],
    c8_can_trade_raises_attribute_error c1Manager "RELIANCE" 10 2500 rfl rfl
      (by norm_num [c1Manager])⟩

/-- C9.  The sentinel defines `rollback_slot` but no
`on_execution_failure`, so `RiskManager.on_execution_failure` raises
`AttributeError`; on a broker rejection (`isSuccessResp = false`) and
on an execution exception alike, `_send_single_order` therefore
propagates `AttributeError` out instead of returning its
REJECTED/FAILED response, and the optimistically reserved slot is
never released (no state-mutating call ever happens on this path). -/
theorem c9_slot_release_raises_attribute_error (r : RawResp) (mem : RiskMem)
    (qty : ℕ) (price : ℚ) (excMsg : String)
    (h : isSuccessResp r = false) :
    "on_execution_failure" ∉ sentinelMethods ∧
    "rollback_slot" ∈ sentinelMethods ∧
    managerOnExecutionFailure mem = .error (.attributeError "on_execution_failure") ∧
    sendSingleOrder (.resp r) mem qty price =
      .error (.attributeError "on_execution_failure") ∧
    sendSingleOrder (.raise excMsg) mem qty price =
      .error (.attributeError "on_execution_failure") := by
    refine ⟨by decide, by decide, rfl, ?_, rfl⟩
    simp only [sendSingleOrder, h, Bool.false_eq_true, if_false]
    rfl

/-- Witness for C9 at the rejection response of the repository's own
engine test (`stat = "Not_Ok"`, `errMsg = "Network Error"`). -/
theorem c9_slot_release_raises_attribute_error_witness :
    isSuccessResp { stat := some "Not_Ok", nOrdNo := none, errMsg := some "Network Error" } =
      false ∧
    ("on_execution_failure" ∉ sentinelMethods ∧
      "rollback_slot" ∈ sentinelMethods ∧
      managerOnExecutionFailure { current_pnl := 0, open_trades := 1, trades_today := 1, peak_equity := 0 } =
        .error (.attributeError "on_execution_failure") ∧
      sendSingleOrder (.resp { stat := some "Not_Ok", nOrdNo := none, errMsg := some "Network Error" })
          { current_pnl := 0, open_trades := 1, trades_today := 1, peak_equity := 0 } 100 0 =
        .error (.attributeError "on_execution_failure") ∧
      sendSingleOrder (.raise "Timeout")
          { current_pnl := 0, open_trades := 1, trades_today := 1, peak_equity := 0 } 100 0 =
        .error (.attributeError "on_execution_failure")) :=
  ⟨rfl, c9_slot_release_raises_attribute_error _ _ 100 0 "Timeout" rfl⟩

/-- C10.  `BaseStrategy._execute` returns `None` and sends nothing
whenever it runs less than one second after the previous successful
trade (the result does not depend on the gate, the broker, or the
order parameters), and `close_position` routes through `_execute`, so
a flatten request inside the debounce window is silently dropped
too. -/
theorem c10_one_second_debounce_drops_all_orders (st : StrategyState) (t now : ℕ)
    (hlast : st.last_trade_time = some t)
    (_hord : t ≤ now)
    (hwin : now - t < 1000) :
    (∀ (gate : Gate) (legOutcome : ℕ → BrokerOutcome) (freezeQty : ℕ)
        (m : ManagerState) (symbol side : String) (qty : ℕ) (price : ℚ),
      stratExecute gate legOutcome freezeQty st m now symbol side qty price =
        .ok (none, st, m)) ∧
    (∀ (gate : Gate) (legOutcome : ℕ → BrokerOutcome) (freezeQty : ℕ)
        (m : ManagerState) (symbol : String),
      st.position ≠ 0 →
      closePosition gate legOutcome freezeQty st m now symbol = .ok (none, st, m)) := by
  have hsec : timedeltaSeconds now t = 0 := by
    unfold timedeltaSeconds
    rw [Nat.div_eq_of_lt hwin]
  have hmain : ∀ (gate : Gate) (legOutcome : ℕ → BrokerOutcome) (freezeQty : ℕ)
      (m : ManagerState) (symbol side : String) (qty : ℕ) (price : ℚ),
      stratExecute gate legOutcome freezeQty st m now symbol side qty price =
        .ok (none, st, m) := by
    intro gate legOutcome freezeQty m symbol side qty price
    simp [stratExecute, hlast, hsec]
  refine ⟨hmain, ?_⟩
  intro gate legOutcome freezeQty m symbol hpos
  unfold closePosition
  rcases lt_trichotomy st.position 0 with hneg | hzero | hposit
  · simp [hpos, not_lt.mpr (le_of_lt hneg), hmain]
  · exact absurd hzero hpos
  · simp [hpos, hposit, hmain]

/-- The strategy one debounce window after an entry fill: long 25,
last successful trade stamped at t = 0 ms. -/
def c10Strategy : StrategyState := { position := 25, last_trade_time := some 0 }

/-- Witness for C10: 500 ms after the fill, both a SELL through
`_execute` and a `close_position` flatten are dropped. -/
theorem c10_one_second_debounce_drops_all_orders_witness :
    c10Strategy.last_trade_time = some 0 ∧
    (0 : ℕ) ≤ 500 ∧
    500 - 0 < 1000 ∧
    stratExecute .deployed c4OkLegs 1800 c10Strategy c1Manager 500 "RELIANCE" "SELL" 25 100 =
      .ok (none, c10Strategy, c1Manager) ∧
    closePosition .deployed c4OkLegs 1800 c10Strategy c1Manager 500 "RELIANCE" =
      .ok (none, c10Strategy, c1Manager) :=
  ⟨rfl, by decide, by decide,
    (c10_one_second_debounce_drops_all_orders c10Strategy 0 500 rfl (by decide) (by decide)).1
      .deployed c4OkLegs 1800 c1Manager "RELIANCE" "SELL" 25 100,
    (c10_one_second_debounce_drops_all_orders c10Strategy 0 500 rfl (by decide) (by decide)).2
      .deployed c4OkLegs 1800 c1Manager "RELIANCE" (by decide)⟩

end NeoPulse
